import Mathlib

/-!
Shallow embedding of the spiderpool IPAM core: the workload-endpoint
manager (pkg/workloadendpointmanager/workloadendpoint_manager.go) and the
allocation/release orchestrator (the ipam package file shipped as
src/unnamed/part_000).  External collaborators (the Kubernetes store, the
pool manager, the limiter, annotation parsers) are passed in as oracle
parameters; the control flow proved about here is transcribed from the
source.
-/

/-! ## Data model (pkg/k8s/apis/spiderpool.spidernet.io/v1) -/

/-- An entry of metadata.ownerReferences. -/
structure OwnerReference where
  uid : String
  name : String
deriving Repr, DecidableEq

/-- IPAllocationDetail: the per-NIC slice of a pod lease. -/
structure IPAllocationDetail where
  nic : String
  ipv4 : Option String
  ipv6 : Option String
  ipv4Pool : Option String
  ipv6Pool : Option String
deriving Repr, DecidableEq

/-- PodIPAllocation: one current/history record of a SpiderEndpoint status. -/
structure PodIPAllocation where
  containerID : String
  node : Option String
  creationTime : Option Nat
  ips : List IPAllocationDetail
deriving Repr, DecidableEq

/-- SpiderEndpoint with the metadata fields the manager reads or writes. -/
structure SpiderEndpoint where
  name : String
  namespc : String
  deletionTimestamp : Option Nat
  ownerReferences : List OwnerReference
  finalizers : List String
  current : Option PodIPAllocation
  history : List PodIPAllocation
  ownerControllerType : String
  ownerControllerName : String
deriving Repr, DecidableEq

/-- The pod fields consumed by the endpoint manager and the orchestrator. -/
structure Pod where
  name : String
  namespc : String
  uid : String
  nodeName : String
deriving Repr, DecidableEq

/-- Top-level controller of a pod (types.PodTopController). -/
structure PodTopController where
  kind : String
  name : String
deriving Repr, DecidableEq

/-- Error kinds of the embedded operations (constant.Err values and the
ad hoc errors.New strings of the source, one constructor per site). -/
inductive IPAMErr where
  | missingParam
  | alreadyExists
  | allocFailed
  | noAvailablePool
  | wrongInput
  | retriesExhausted
  | deleteCreateRace
  | unmarked
  | corrupt
  | mismarked
  | notAllocated
  | mergeFailed
  | releaseFailed
  | getFailed
  | updateFailed
  | customRoutesBad
  | annoGenFailed
deriving Repr, DecidableEq

/-- constant.KindStatefulSet. -/
def kindStatefulSet : String := "StatefulSet"

/-- constant.SpiderFinalizer. -/
def spiderFinalizer : String := "spiderpool.spidernet.io"

/-! ## Endpoint manager (workloadendpoint_manager.go)

Each operation is embedded as a pure function on the endpoint value; the
final client.Status().Update is assumed to succeed at this layer (store
conflicts are modelled only where the source retries on them, in
RemoveFinalizer).  Outcomes that write carry the updated endpoint. -/

/-- Outcome of ReMarkIPAllocation / ReallocateCurrentIPAllocation: the
source dereferences without a bounds or nil check in two places, so the
embedding has an explicit constructor for the run-time panic. The wrote
flag records whether client.Status().Update was issued. -/
inductive EpOut where
  | panics
  | err (e : IPAMErr)
  | ok (ep : SpiderEndpoint) (wrote : Bool)
deriving Repr, DecidableEq

/-- The owner reference SetOwnerReference(pod, endpoint) installs. -/
def ownerRefOfPod (pod : Pod) : OwnerReference :=
  { uid := pod.uid, name := pod.name }

/-- MarkIPAllocation (workloadendpoint_manager.go lines 108-155).  The
manager unconditionally constructs a fresh Endpoint and calls
client.Create; the Kubernetes API create fails with AlreadyExists when an
object of that namespace/name exists, embedded here as the store argument
(the Endpoint of the pod, if any).  On success the status update sets
current, history and the owner controller fields.  Returns the operation
result and the resulting store content. -/
def markIPAllocation (containerID : String) (pod : Pod)
    (podController : PodTopController) (now : Nat)
    (store : Option SpiderEndpoint) :
    Except IPAMErr SpiderEndpoint × Option SpiderEndpoint :=
  match store with
  | some _ => (.error .alreadyExists, store)
  | none =>
    let refs :=
      if podController.kind != kindStatefulSet then [ownerRefOfPod pod] else []
    let alloc : PodIPAllocation :=
      { containerID := containerID, node := some pod.nodeName,
        creationTime := some now, ips := [] }
    let ep : SpiderEndpoint :=
      { name := pod.name, namespc := pod.namespc, deletionTimestamp := none,
        ownerReferences := refs, finalizers := [spiderFinalizer],
        current := some alloc, history := [alloc],
        ownerControllerType := podController.kind,
        ownerControllerName := podController.name }
    (.ok ep, some ep)

/-- The writing tail of ReMarkIPAllocation: replace current, prepend the
new snapshot to history and truncate it to maxHistory. -/
def reMarkWrite (maxHistory : Nat) (containerID : String)
    (ep : SpiderEndpoint) (pod : Pod) (now : Nat) : EpOut :=
  let alloc : PodIPAllocation :=
    { containerID := containerID, node := some pod.nodeName,
      creationTime := some now, ips := [] }
  let hist := alloc :: ep.history
  let hist := if hist.length > maxHistory then hist.take maxHistory else hist
  .ok { ep with current := some alloc, history := hist } true

/-- The tail of ReMarkIPAllocation after the delete-create-race check:
no-op when the current container ID already matches, otherwise write. -/
def reMarkCore (maxHistory : Nat) (containerID : String)
    (ep : SpiderEndpoint) (pod : Pod) (now : Nat) : EpOut :=
  match ep.current with
  | some cur =>
    if cur.containerID = containerID then .ok ep false
    else reMarkWrite maxHistory containerID ep pod now
  | none => reMarkWrite maxHistory containerID ep pod now

/-- ReMarkIPAllocation (lines 157-201).  When the endpoint is terminating
the source indexes GetOwnerReferences()[0] without checking the list is
non-empty; the empty case is the out-of-bounds panic. -/
def reMarkIPAllocation (maxHistory : Nat) (containerID : String)
    (ep : SpiderEndpoint) (pod : Pod) (now : Nat) : EpOut :=
  match ep.deletionTimestamp with
  | some _ =>
    match ep.ownerReferences with
    | [] => .panics
    | ownerPod :: _ =>
      if ownerPod.uid != pod.uid then .err .deleteCreateRace
      else reMarkCore maxHistory containerID ep pod now
  | none => reMarkCore maxHistory containerID ep pod now

/-- PatchIPAllocation (lines 203-229): set current.ips for the matching
container ID and prepend the updated current to history (no truncation). -/
def patchIPAllocation (alloc : PodIPAllocation) (ep : SpiderEndpoint) :
    Except IPAMErr SpiderEndpoint :=
  match ep.current with
  | none => .error .unmarked
  | some cur =>
    match ep.history with
    | [] => .error .corrupt
    | h0 :: _ =>
      if h0.containerID != cur.containerID then .error .corrupt
      else if cur.containerID != alloc.containerID then .error .mismarked
      else
        let cur2 := { cur with ips := alloc.ips }
        .ok { ep with current := some cur2, history := cur2 :: ep.history }

/-- ClearCurrentIPAllocation (lines 231-246): no-op on nil endpoint, nil
current or container ID mismatch; otherwise current is dropped (NotFound
on the status update is ignored, so the operation never fails). -/
def clearCurrentIPAllocation (containerID : String) :
    Option SpiderEndpoint → Option SpiderEndpoint
  | none => none
  | some ep =>
    match ep.current with
    | none => some ep
    | some cur =>
      if cur.containerID = containerID then some { ep with current := none }
      else some ep

/-- ReallocateCurrentIPAllocation (lines 248-266): no-op when the current
container ID matches; otherwise rewrite containerID and node in place and
prepend to history (no truncation).  The source writes the node through
the pointer Status.Current.Node, a nil dereference when node is absent. -/
def reallocateCurrentIPAllocation (containerID nodeName : String)
    (ep : SpiderEndpoint) : EpOut :=
  match ep.current with
  | none => .err .notAllocated
  | some cur =>
    if cur.containerID = containerID then .ok ep false
    else
      match cur.node with
      | none => .panics
      | some _ =>
        let cur2 := { cur with containerID := containerID,
                               node := some nodeName }
        .ok { ep with current := some cur2, history := cur2 :: ep.history }
          true

/-! ## RemoveFinalizer (lines 80-106)

The conflict-retry loop is embedded with per-iteration oracles for the
re-read of the endpoint and the update outcome, plus a draw oracle for
rand.Intn.  The second return component is the list of sleep durations,
the i-th sleep being rand.Intn(1 shl (i+1)) * unit as in the source. -/

/-- Outcome of GetEndpointByName at one iteration of RemoveFinalizer: the
endpoint was found (with or without the sentinel finalizer), was not
found (tolerated), or the read failed. -/
inductive GetOut where
  | found (hasFin : Bool)
  | notFound
  | readFailed
deriving Repr, DecidableEq

/-- Outcome of client.Update at one iteration of RemoveFinalizer. -/
inductive UpdOut where
  | okU
  | conflictU
  | errU
deriving Repr, DecidableEq

/-- One pass of the RemoveFinalizer retry loop, structurally recursive on
the remaining iteration count (fuel = maxRetries + 1 - i throughout). -/
def removeFinalizerAux (maxRetries unit : Nat) (get : Nat → GetOut)
    (upd : Nat → UpdOut) (draw : Nat → Nat) :
    Nat → Nat → Except IPAMErr Unit × List Nat
  | _, 0 => (.ok (), [])
  | i, fuel + 1 =>
    match get i with
    | .readFailed => (.error .getFailed, [])
    | .notFound => (.ok (), [])
    | .found hasFin =>
      if !hasFin then (.ok (), [])
      else
        match upd i with
        | .okU => (.ok (), [])
        | .errU => (.error .updateFailed, [])
        | .conflictU =>
          if i = maxRetries then (.error .retriesExhausted, [])
          else
            let sleep := (draw i % 2 ^ (i + 1)) * unit
            let out := removeFinalizerAux maxRetries unit get upd draw
                (i + 1) fuel
            (out.1, sleep :: out.2)

/-- RemoveFinalizer: run the loop from i = 0; the loop bound is
i <= MaxConflictRetries. -/
def removeFinalizer (maxRetries unit : Nat) (get : Nat → GetOut)
    (upd : Nat → UpdOut) (draw : Nat → Nat) :
    Except IPAMErr Unit × List Nat :=
  removeFinalizerAux maxRetries unit get upd draw 0 (maxRetries + 1)

/-- The sleep sequence the loop produces from index i on when every
update conflicts: count sleeps, the j-th of bound 2 ^ (j + 1). -/
def conflictSleeps (unit : Nat) (draw : Nat → Nat) :
    Nat → Nat → List Nat
  | _, 0 => []
  | i, count + 1 =>
    (draw i % 2 ^ (i + 1)) * unit :: conflictSleeps unit draw (i + 1) count

/-! ## Orchestrator (src/unnamed/part_000, package ipam)

External managers are oracles in IpamEnv; the mutable world the cited
control flow touches (pool allocation records, the endpoint, the leftover
custom routes, the pod annotation map, the rollback-failure metric) is
IpamState.  Log emission is a writer component so that the claims about
"logged but not aborted" are statable. -/

/-- models.Route. -/
structure Route where
  ifName : String
  dst : String
  gw : String
deriving Repr, DecidableEq

/-- models.IPConfig as far as the cited code reads it. -/
structure IPConfig where
  address : String
  nic : String
  ipPool : String
  version : Nat
deriving Repr, DecidableEq

/-- One allocation entry of an IPPool status (pool, address, container). -/
structure GrantEntry where
  pool : String
  addr : String
  cid : String
deriving Repr, DecidableEq

/-- PoolCandidate: pools of one IP version tried in order for one NIC. -/
structure PoolCandidate where
  ipVersion : Nat
  pools : List String
deriving Repr, DecidableEq

/-- ToBeAllocated: the per-NIC work item. -/
structure ToBeAllocated where
  nic : String
  cleanGateway : Bool
  poolCandidates : List PoolCandidate
deriving Repr, DecidableEq

/-- AllocationResult of one pool-candidate attempt. -/
structure AllocationResult where
  ip : Option IPConfig
  routes : List Route
  cleanGateway : Bool
deriving Repr, DecidableEq

/-- The mutable world of one Allocate/Release request. -/
structure IpamState where
  granted : List GrantEntry
  endpoint : Option SpiderEndpoint
  customRoutes : List Route
  podAnnos : List (String × String)
  rollbackFailureMetric : Nat
deriving Repr, DecidableEq

/-- Oracles for the external managers the orchestrator calls:
ipPoolManager.AllocateIP / ReleaseIP, the limiter ticket outcome, the
annotation helpers, the pool spec routes, and the MarkIPAllocation call
(whose endpoint-manager implementation is a different layer). -/
structure IpamEnv where
  allocateIP : String → String → String → Option IPConfig
  poolRoutes : String → List Route
  releaseOk : String → Bool
  acquireOk : Bool
  customRoutes : Except IPAMErr (List Route)
  groupRoutes : List Route → Option IPConfig → Except IPAMErr (List Route × List Route)
  genAnno : List IPConfig → Except IPAMErr (List (String × String))
  mergeOk : Bool
  markResult : Except IPAMErr SpiderEndpoint

/-- convertSpecRoutesToOAIRoutes: rewrite pool routes onto the pod NIC. -/
def convertSpecRoutesToOAIRoutes (nic : String) (routes : List Route) :
    List Route :=
  routes.map fun r => { r with ifName := nic }

/-- The pool loop of allocateIPFromPoolCandidates: try the pools in
order, the first successful AllocateIP wins and records the grant; a
failed pool only logs a warning and the loop continues. -/
def tryPools (alloc : String → String → String → Option IPConfig) :
    List String → String → String → IpamState →
    Option (IPConfig × String) × IpamState × List String
  | [], _, _, st => (none, st, [])
  | p :: ps, nic, cid, st =>
    match alloc p nic cid with
    | some cfg =>
      (some (cfg, p),
       { st with granted := ⟨p, cfg.address, cid⟩ :: st.granted }, [])
    | none =>
      let out := tryPools alloc ps nic cid st
      (out.1, out.2.1, ("Failed to allocate from IPPool " ++ p) :: out.2.2)

/-- allocateIPFromPoolCandidates (part_000 lines 336-381): a limiter
ticket-acquisition failure is only logged before trying the pools; the
error case is exactly all pools of the candidate failing. -/
def allocateIPFromPoolCandidates (env : IpamEnv) (c : PoolCandidate)
    (nic cid : String) (cleanGw : Bool) (st : IpamState) :
    AllocationResult × IpamState × Option IPAMErr × List String :=
  let lg0 : List String :=
    if env.acquireOk then [] else ["Failed to queue correctly"]
  let out := tryPools env.allocateIP c.pools nic cid st
  match out.1 with
  | some cfgPool =>
    ({ ip := some cfgPool.1, cleanGateway := cleanGw,
       routes := convertSpecRoutesToOAIRoutes nic
         (env.poolRoutes cfgPool.2) },
     out.2.1, none, lg0 ++ out.2.2)
  | none =>
    ({ ip := none, cleanGateway := false, routes := [] },
     out.2.1, some .allocFailed, lg0 ++ out.2.2)

/-- convertResultsToIPDetails: one IPAllocationDetail per granted result,
on the v4 or v6 side according to the config version. -/
def convertResultsToIPDetails (results : List AllocationResult) :
    List IPAllocationDetail :=
  results.filterMap fun r =>
    r.ip.map fun c =>
      if c.version = 4 then
        { nic := c.nic, ipv4 := some c.address, ipv4Pool := some c.ipPool,
          ipv6 := none, ipv6Pool := none }
      else
        { nic := c.nic, ipv4 := none, ipv4Pool := none,
          ipv6 := some c.address, ipv6Pool := some c.ipPool }

/-- convertResultsToIPConfigsAndAllRoutes: the granted IPConfigs and the
concatenation of all result routes. -/
def convertResultsToIPConfigsAndAllRoutes (results : List AllocationResult) :
    List IPConfig × List Route :=
  (results.filterMap fun r => r.ip,
   results.foldl (fun acc r => acc ++ r.routes) [])

/-- PatchIPAllocation as the orchestrator sees it: patch the endpoint
held in the request state. -/
def patchIPAllocationS (alloc : PodIPAllocation) (st : IpamState) :
    Except IPAMErr Unit × IpamState :=
  match st.endpoint with
  | none => (.error .missingParam, st)
  | some ep =>
    match patchIPAllocation alloc ep with
    | .error e => (.error e, st)
    | .ok ep2 => (.ok (), { st with endpoint := some ep2 })

/-- The candidate loop of allocateForOneNIC (lines 307-334): allocate
from the candidate, group the request custom routes by gateway onto the
result, patch the endpoint, fail fast keeping the results granted so
far. -/
def allocateCandidates (env : IpamEnv) :
    List PoolCandidate → String → String → Bool → IpamState →
    List AllocationResult × IpamState × Option IPAMErr × List String
  | [], _, _, _, st => ([], st, none, [])
  | c :: rest, nic, cid, cleanGw, st =>
    let out := allocateIPFromPoolCandidates env c nic cid cleanGw st
    let result := out.1
    let st1 := out.2.1
    let lg1 := out.2.2.2
    let keep := if result.ip.isSome then [result] else []
    match out.2.2.1 with
    | some e => (keep, st1, some e, lg1)
    | none =>
      match env.groupRoutes st1.customRoutes result.ip with
      | .error e => (keep, st1, some e, lg1)
      | .ok pair =>
        let result := { result with routes := result.routes ++ pair.1 }
        let keep := if result.ip.isSome then [result] else []
        let st2 := { st1 with customRoutes := pair.2 }
        let patchOut := patchIPAllocationS
          { containerID := cid, node := none, creationTime := none,
            ips := convertResultsToIPDetails [result] } st2
        match patchOut.1 with
        | .error e => (keep, patchOut.2, some e, lg1)
        | .ok _ =>
          let more := allocateCandidates env rest nic cid cleanGw patchOut.2
          (keep ++ more.1, more.2.1, more.2.2.1, lg1 ++ more.2.2.2)

/-- allocateForOneNIC. -/
def allocateForOneNIC (env : IpamEnv) (t : ToBeAllocated) (cid : String)
    (st : IpamState) :
    List AllocationResult × IpamState × Option IPAMErr × List String :=
  allocateCandidates env t.poolCandidates t.nic cid t.cleanGateway st

/-- The NIC loop of allocateForAllNICs (lines 280-289): accumulate the
per-NIC results, fail fast on the first NIC error. -/
def allocateNICs (env : IpamEnv) :
    List ToBeAllocated → String → IpamState →
    List AllocationResult × IpamState × Option IPAMErr × List String
  | [], _, st => ([], st, none, [])
  | t :: rest, cid, st =>
    let one := allocateForOneNIC env t cid st
    match one.2.2.1 with
    | some e => (one.1, one.2.1, some e, one.2.2.2)
    | none =>
      let more := allocateNICs env rest cid one.2.1
      (one.1 ++ more.1, more.2.1, more.2.2.1, one.2.2.2 ++ more.2.2.2)

/-- allocateForAllNICs (lines 272-305): read the custom routes from the
pod, run the NIC loop, then generate the IP-assignment annotation and
merge it onto the pod; a merge failure surfaces as an error while the
results stay granted. -/
def allocateForAllNICs (env : IpamEnv) (tt : List ToBeAllocated)
    (cid : String) (st : IpamState) :
    List AllocationResult × IpamState × Option IPAMErr × List String :=
  match env.customRoutes with
  | .error e => ([], st, some e, [])
  | .ok crs =>
    let out := allocateNICs env tt cid { st with customRoutes := crs }
    match out.2.2.1 with
    | some e => (out.1, out.2.1, some e, out.2.2.2)
    | none =>
      let lgWarn : List String :=
        if out.2.1.customRoutes.isEmpty then []
        else ["Invalid custom routes"]
      let ips := (convertResultsToIPConfigsAndAllRoutes out.1).1
      match env.genAnno ips with
      | .error e => (out.1, out.2.1, some e, out.2.2.2 ++ lgWarn)
      | .ok anno =>
        if env.mergeOk then
          (out.1, { out.2.1 with podAnnos := out.2.1.podAnnos ++ anno },
           none, out.2.2.2 ++ lgWarn)
        else
          (out.1, out.2.1, some .mergeFailed, out.2.2.2 ++ lgWarn)

/-- GroupIPDetails: flatten the v4/v6 sides of the details into
(pool, (address, containerID)) tuples grouped by pool, preserving first
appearance order (the source groups into a map and fans out per pool). -/
def insertGroup (pool : String) (e : String × String) :
    List (String × List (String × String)) →
    List (String × List (String × String))
  | [] => [(pool, [e])]
  | (p, es) :: rest =>
    if p = pool then (p, es ++ [e]) :: rest
    else (p, es) :: insertGroup pool e rest

/-- GroupIPDetails over a detail list. -/
def GroupIPDetails (cid : String) (details : List IPAllocationDetail) :
    List (String × List (String × String)) :=
  details.foldl
    (fun acc d =>
      let acc :=
        match d.ipv4, d.ipv4Pool with
        | some ip, some pool => insertGroup pool (ip, cid) acc
        | _, _ => acc
      match d.ipv6, d.ipv6Pool with
      | some ip, some pool => insertGroup pool (ip, cid) acc
      | _, _ => acc)
    []

/-- The per-pool fan-out of ipam.release (lines 743-761): for each pool a
ticket is acquired (failure only logged), ReleaseIP removes the matching
allocation entries, and per-pool errors are aggregated. -/
def releaseGroups (env : IpamEnv) :
    List (String × List (String × String)) → IpamState →
    Bool × IpamState × List String
  | [], st => (true, st, [])
  | g :: rest, st =>
    let lg0 : List String :=
      if env.acquireOk then [] else ["Failed to queue correctly"]
    let succ := env.releaseOk g.1
    let st1 :=
      if succ then
        { st with granted := st.granted.filter fun e =>
            !(e.pool == g.1 && g.2.contains (e.addr, e.cid)) }
      else st
    let out := releaseGroups env rest st1
    (succ && out.1, out.2.1, lg0 ++ out.2.2)

/-- ipam.release (lines 731-774). -/
def releaseS (env : IpamEnv) (cid : String)
    (details : List IPAllocationDetail) (st : IpamState) :
    Except IPAMErr Unit × IpamState × List String :=
  match details with
  | [] => (.ok (), st, [])
  | _ :: _ =>
    let out := releaseGroups env (GroupIPDetails cid details) st
    (if out.1 then .ok () else .error .releaseFailed, out.2.1, out.2.2)

/-- allocateInStandardMode (lines 202-244) from the point the candidate
set is computed: mark the endpoint, allocate for all NICs, and on any
error roll back - release the granted results when there are any (a
rollback failure increments the rollback-failure metric and returns the
original error immediately), then clear the current allocation (its
failure only logged) and return the original error. -/
def allocateInStandardMode (env : IpamEnv) (tt : List ToBeAllocated)
    (cid : String) (st : IpamState) :
    Except IPAMErr (List IPConfig × List Route) × IpamState × List String :=
  match env.markResult with
  | .error e => (.error e, st, [])
  | .ok ep =>
    let out := allocateForAllNICs env tt cid { st with endpoint := some ep }
    let results := out.1
    let st1 := out.2.1
    let lgs := out.2.2.2
    let conv := convertResultsToIPConfigsAndAllRoutes results
    match out.2.2.1 with
    | none => (.ok conv, st1, lgs)
    | some e =>
      if conv.1.isEmpty then
        (.error e,
         { st1 with endpoint := clearCurrentIPAllocation cid st1.endpoint },
         lgs)
      else
        let rel := releaseS env cid (convertResultsToIPDetails results) st1
        match rel.1 with
        | .error _ =>
          (.error e,
           { rel.2.1 with rollbackFailureMetric :=
               rel.2.1.rollbackFailureMetric + 1 },
           lgs ++ rel.2.2 ++ ["Failed to roll back the allocated IPs"])
        | .ok _ =>
          (.error e,
           { rel.2.1 with endpoint :=
               clearCurrentIPAllocation cid rel.2.1.endpoint },
           lgs ++ rel.2.2)

/-! ## Verifier (part_000 lines 667-684) -/

/-- All pools of one ToBeAllocated across its candidates (the allPools
accumulation inside verifyPoolCandidates). -/
def allPoolsOf (t : ToBeAllocated) : List String :=
  t.poolCandidates.foldl (fun acc c => acc ++ c.pools) []

/-- Modelled from the spec: ipPoolManager.CheckVlanSame is not under
src/; per the spec the verifier "requires that all pools retained for one
request share the same VLAN tag", so the check holds exactly when every
listed pool carries the vlan of the first. -/
def checkVlanSame (vlan : String → Nat) (pools : List String) : Bool :=
  match pools with
  | [] => true
  | p :: ps => ps.all fun q => vlan q == vlan p

/-- verifyPoolCandidates: the source iterates the ToBeAllocated items and
checks VLAN sameness for the pools of each item separately, failing with
WrongInput on the first item whose pools disagree. -/
def verifyPoolCandidates (vlan : String → Nat) :
    List ToBeAllocated → Except IPAMErr Unit
  | [] => .ok ()
  | t :: rest =>
    if checkVlanSame vlan (allPoolsOf t) then verifyPoolCandidates vlan rest
    else .error .wrongInput

/-! ## Candidate selection (part_000 lines 383-429)

The six configuration sources are oracles; getPoolCandidates is the
transcription of the source's early-return cascade. -/

/-- Results of the six selection sources for one request, as the source
queries them: getPoolFromSubnet, the two pod annotation keys with their
parsers, getPoolFromNS, getPoolFromNetConf, getClusterDefaultPool. -/
structure CandidateSources where
  fromSubnet : Except IPAMErr (Option ToBeAllocated)
  annoPodIPPools : Option String
  annoPodIPPool : Option String
  parseAnnoPools : String → Except IPAMErr (List ToBeAllocated)
  parseAnnoPool : String → Except IPAMErr ToBeAllocated
  fromNS : Except IPAMErr (Option ToBeAllocated)
  fromNetConf : Option ToBeAllocated
  clusterDefault : Except IPAMErr ToBeAllocated

/-- getPoolCandidates: subnet annotation, then the ippools annotation,
then the ippool annotation, then the namespace defaults, then the CNI
netconf defaults, then the cluster default pools. -/
def getPoolCandidates (s : CandidateSources) :
    Except IPAMErr (List ToBeAllocated) :=
  match s.fromSubnet with
  | .error e => .error e
  | .ok (some t) => .ok [t]
  | .ok none =>
    match s.annoPodIPPools with
    | some anno => s.parseAnnoPools anno
    | none =>
      match s.annoPodIPPool with
      | some anno =>
        match s.parseAnnoPool anno with
        | .error e => .error e
        | .ok t => .ok [t]
      | none =>
        match s.fromNS with
        | .error e => .error e
        | .ok (some t) => .ok [t]
        | .ok none =>
          match s.fromNetConf with
          | some t => .ok [t]
          | none =>
            match s.clusterDefault with
            | .error e => .error e
            | .ok t => .ok [t]

/-- What one configuration source contributes when consulted: nothing,
a candidate list, or a failure that aborts the request. -/
inductive SourceYield where
  | nothing
  | yields (ts : List ToBeAllocated)
  | fails (e : IPAMErr)
deriving Repr

/-- Yield of the pod subnet annotation source. -/
def subnetYield (s : CandidateSources) : SourceYield :=
  match s.fromSubnet with
  | .error e => .fails e
  | .ok none => .nothing
  | .ok (some t) => .yields [t]

/-- Yield of the pod ippools annotation source. -/
def ippoolsYield (s : CandidateSources) : SourceYield :=
  match s.annoPodIPPools with
  | none => .nothing
  | some anno =>
    match s.parseAnnoPools anno with
    | .error e => .fails e
    | .ok ts => .yields ts

/-- Yield of the pod ippool annotation source. -/
def ippoolYield (s : CandidateSources) : SourceYield :=
  match s.annoPodIPPool with
  | none => .nothing
  | some anno =>
    match s.parseAnnoPool anno with
    | .error e => .fails e
    | .ok t => .yields [t]

/-- Yield of the namespace default-pool source. -/
def nsYield (s : CandidateSources) : SourceYield :=
  match s.fromNS with
  | .error e => .fails e
  | .ok none => .nothing
  | .ok (some t) => .yields [t]

/-- Yield of the CNI netconf default source. -/
def netConfYield (s : CandidateSources) : SourceYield :=
  match s.fromNetConf with
  | none => .nothing
  | some t => .yields [t]

/-- Yield of the cluster default-pool source (never nothing). -/
def clusterYield (s : CandidateSources) : SourceYield :=
  match s.clusterDefault with
  | .error e => .fails e
  | .ok t => .yields [t]

/-- The precedence order the spec states, as a list of sources. -/
def sourceList (s : CandidateSources) : List SourceYield :=
  [subnetYield s, ippoolsYield s, ippoolYield s, nsYield s, netConfYield s,
   clusterYield s]

/-- First-match-wins consultation: a later source is reached only when
every earlier source yields nothing. -/
def firstMatch : List SourceYield → Except IPAMErr (List ToBeAllocated)
  | [] => .ok []
  | y :: rest =>
    match y with
    | .nothing => firstMatch rest
    | .yields ts => .ok ts
    | .fails e => .error e

/-! ## Concrete fixtures for witnesses and counterexamples -/

/-- Container ID fixture. -/
def cid1 : String := "c1"

/-- Second container ID fixture. -/
def cid2 : String := "c2"

/-- Node name fixture. -/
def nodeFix : String := "node1"

/-- Pod fixture. -/
def podFix : Pod :=
  { name := "app-0", namespc := "ns1", uid := "uid-pod-a",
    nodeName := "node1" }

/-- Deployment controller fixture. -/
def ctrlDeploy : PodTopController := { kind := "Deployment", name := "dep" }

/-- StatefulSet controller fixture. -/
def ctrlSts : PodTopController := { kind := "StatefulSet", name := "db" }

/-- The current allocation MarkIPAllocation builds for podFix at time 0. -/
def allocFix : PodIPAllocation :=
  { containerID := "c1", node := some "node1", creationTime := some 0,
    ips := [] }

/-- The endpoint MarkIPAllocation creates for podFix under ctrlDeploy. -/
def epFix : SpiderEndpoint :=
  { name := "app-0", namespc := "ns1", deletionTimestamp := none,
    ownerReferences := [{ uid := "uid-pod-a", name := "app-0" }],
    finalizers := [spiderFinalizer], current := some allocFix,
    history := [allocFix], ownerControllerType := "Deployment",
    ownerControllerName := "dep" }

/-- A detail as produced for the single granted v4 address. -/
def detailFix : IPAllocationDetail :=
  { nic := "eth0", ipv4 := some "10.0.0.2/24", ipv6 := none,
    ipv4Pool := some "p4", ipv6Pool := none }

/-- Patch payload carrying detailFix for container c1. -/
def allocPatchFix : PodIPAllocation :=
  { containerID := "c1", node := none, creationTime := none,
    ips := [detailFix] }

/-- The current record after PatchIPAllocation applies allocPatchFix. -/
def curPatched : PodIPAllocation :=
  { containerID := "c1", node := some "node1", creationTime := some 0,
    ips := [detailFix] }

/-- The endpoint after PatchIPAllocation applies allocPatchFix to epFix. -/
def c2ep2 : SpiderEndpoint :=
  { epFix with current := some curPatched,
               history := [curPatched, allocFix] }

/-- History length after patching epFix (0 on a patch error). -/
def c2PatchLen : Nat :=
  match patchIPAllocation allocPatchFix epFix with
  | .ok ep2 => ep2.history.length
  | .error _ => 0

/-- Terminating endpoint whose single owner reference is podFix. -/
def epTermOwner : SpiderEndpoint := { epFix with deletionTimestamp := some 2 }

/-- Terminating endpoint with no owner reference at all. -/
def epTermNoOwner : SpiderEndpoint :=
  { epFix with deletionTimestamp := some 3, ownerReferences := [] }

/-- Terminating endpoint owned by a different pod UID. -/
def epRace : SpiderEndpoint :=
  { epFix with deletionTimestamp := some 0,
               ownerReferences := [{ uid := "uid-other", name := "app-0" }] }

/-- One-NIC candidate set: eth0 with the single v4 pool p4. -/
def tt1 : List ToBeAllocated :=
  [{ nic := "eth0", cleanGateway := false,
     poolCandidates := [{ ipVersion := 4, pools := ["p4"] }] }]

/-- Two-NIC candidate set: eth0 backed by p4, net1 backed by pbad. -/
def tt2 : List ToBeAllocated :=
  [{ nic := "eth0", cleanGateway := false,
     poolCandidates := [{ ipVersion := 4, pools := ["p4"] }] },
   { nic := "net1", cleanGateway := false,
     poolCandidates := [{ ipVersion := 4, pools := ["pbad"] }] }]

/-- Empty initial request state. -/
def st0 : IpamState :=
  { granted := [], endpoint := none, customRoutes := [], podAnnos := [],
    rollbackFailureMetric := 0 }

/-- Environment for C1: the pool p4 allocates, every other pool fails,
MergeAnnotations fails, the release succeeds. -/
def envC1 : IpamEnv :=
  { allocateIP := fun pool nic _ =>
      if pool = "p4" then
        some { address := "10.0.0.2/24", nic := nic, ipPool := pool,
               version := 4 }
      else none,
    poolRoutes := fun _ => [],
    releaseOk := fun _ => true,
    acquireOk := true,
    customRoutes := .ok [],
    groupRoutes := fun crs _ => .ok ([], crs),
    genAnno := fun _ => .ok [],
    mergeOk := false,
    markResult := .ok epFix }

/-- Environment for C5: same allocation oracle, but every release
fails (so the rollback itself fails); merging would succeed. -/
def envC5 : IpamEnv := { envC1 with releaseOk := fun _ => false,
                                    mergeOk := true }

/-- Intermediate per-NIC outcome of the C1 run. -/
def c1out : List AllocationResult × IpamState × Option IPAMErr × List String :=
  allocateForAllNICs envC1 tt1 cid1 { st0 with endpoint := some epFix }

/-- Release outcome of the C1 rollback. -/
def c1rel : Except IPAMErr Unit × IpamState × List String :=
  releaseS envC1 cid1 (convertResultsToIPDetails c1out.1) c1out.2.1

/-- Intermediate per-NIC outcome of the C5 run. -/
def c5out : List AllocationResult × IpamState × Option IPAMErr × List String :=
  allocateForAllNICs envC5 tt2 cid1 { st0 with endpoint := some epFix }

/-- Release outcome of the C5 rollback. -/
def c5rel : Except IPAMErr Unit × IpamState × List String :=
  releaseS envC5 cid1 (convertResultsToIPDetails c5out.1) c5out.2.1

/-- VLAN oracle for C3: pool a has vlan 0, every other pool vlan 1. -/
def vlanCE : String → Nat := fun p => if p = "a" then 0 else 1

/-- Two NICs whose pools carry different VLANs (a, then b). -/
def ttCE : List ToBeAllocated :=
  [{ nic := "eth0", cleanGateway := false,
     poolCandidates := [{ ipVersion := 4, pools := ["a"] }] },
   { nic := "net1", cleanGateway := false,
     poolCandidates := [{ ipVersion := 4, pools := ["b"] }] }]

/-- RemoveFinalizer read oracle: the endpoint always has the finalizer. -/
def c8get : Nat → GetOut := fun _ => .found true

/-- RemoveFinalizer update oracle: every update conflicts. -/
def c8upd : Nat → UpdOut := fun _ => .conflictU

/-- RemoveFinalizer draw oracle: rand.Intn always returns 1. -/
def c8draw : Nat → Nat := fun _ => 1

/-! ## Helper lemmas -/

/-- The no-race tail of ReMarkIPAllocation never reaches the panic. -/
theorem reMarkCore_ne_panics (maxHistory : Nat) (containerID : String)
    (ep : SpiderEndpoint) (pod : Pod) (now : Nat) :
    reMarkCore maxHistory containerID ep pod now ≠ EpOut.panics := by
  unfold reMarkCore reMarkWrite
  match ep.current with
  | some cur =>
    by_cases h : cur.containerID = containerID <;> simp [h]
  | none => simp

/-- Whenever the writing tail of ReMarkIPAllocation runs, the resulting
history is truncated to at most maxHistory records. -/
theorem reMarkWrite_history_le (maxHistory : Nat) (containerID : String)
    (ep : SpiderEndpoint) (pod : Pod) (now : Nat) (ep2 : SpiderEndpoint)
    (w : Bool)
    (h : reMarkWrite maxHistory containerID ep pod now = .ok ep2 w) :
    ep2.history.length ≤ maxHistory := by
  unfold reMarkWrite at h
  by_cases hlen : ep.history.length + 1 > maxHistory
  · simp only [List.length_cons, hlen, if_pos, EpOut.ok.injEq] at h
    obtain ⟨h1, -⟩ := h
    subst h1
    simp [List.length_take]
  · simp only [List.length_cons, hlen, if_neg, EpOut.ok.injEq] at h
    obtain ⟨h1, -⟩ := h
    subst h1
    simpa using Nat.le_of_not_lt hlen

/-! ## Claim C2 -/

/-- Claim C2, counterexample.  MaxHistoryRecords = 1: MarkIPAllocation
creates epFix with one history record, and one PatchIPAllocation (which
prepends without truncating, workloadendpoint_manager.go line 226) makes
the history two records long, exceeding the bound. -/
theorem claimC2_counterexample :
    (markIPAllocation cid1 podFix ctrlDeploy 0 none).1 = .ok epFix ∧
    patchIPAllocation allocPatchFix epFix = .ok c2ep2 ∧
    c2PatchLen = 2 ∧ ¬ c2PatchLen ≤ 1 := by
  refine ⟨rfl, rfl, rfl, by decide⟩

/-- Claim C2, amended: MarkIPAllocation initializes history at length 1
and ReMarkIPAllocation truncates to MaxHistoryRecords whenever it
writes, but PatchIPAllocation grows history by exactly one record and
ReallocateCurrentIPAllocation by up to one record, with no truncation,
so the MaxHistoryRecords bound is not an invariant of sequences that
include Patch or Reallocate. -/
theorem claimC2 :
    (∀ cid pod ctrl now ep,
        (markIPAllocation cid pod ctrl now none).1 = .ok ep →
        ep.history.length = 1) ∧
    (∀ maxH cid ep pod now ep2 w,
        reMarkIPAllocation maxH cid ep pod now = .ok ep2 w →
        ep2.history.length ≤ max ep.history.length maxH) ∧
    (∀ alloc ep ep2,
        patchIPAllocation alloc ep = .ok ep2 →
        ep2.history.length = ep.history.length + 1) ∧
    (∀ cid node ep ep2 w,
        reallocateCurrentIPAllocation cid node ep = .ok ep2 w →
        ep2.history.length ≤ ep.history.length + 1) := by
  refine ⟨?_, ?_, ?_, ?_⟩
  · intro cid pod ctrl now ep h
    simp only [markIPAllocation, Except.ok.injEq] at h
    subst h
    rfl
  · intro maxH cid ep pod now ep2 w h
    have hcore : reMarkCore maxH cid ep pod now = .ok ep2 w →
        ep2.history.length ≤ max ep.history.length maxH := by
      intro hc
      unfold reMarkCore at hc
      split at hc
      · split at hc
        · simp only [EpOut.ok.injEq] at hc
          obtain ⟨h1, -⟩ := hc
          subst h1
          exact Nat.le_max_left _ _
        · exact Nat.le_trans (reMarkWrite_history_le _ _ _ _ _ _ _ hc)
            (Nat.le_max_right _ _)
      · exact Nat.le_trans (reMarkWrite_history_le _ _ _ _ _ _ _ hc)
          (Nat.le_max_right _ _)
    unfold reMarkIPAllocation at h
    split at h
    · split at h
      · simp at h
      · split at h
        · simp at h
        · exact hcore h
    · exact hcore h
  · intro alloc ep ep2 h
    unfold patchIPAllocation at h
    split at h
    · simp at h
    · split at h
      · simp at h
      · split at h
        · simp at h
        · split at h
          · simp at h
          · simp only [Except.ok.injEq] at h
            subst h
            simp_all
  · intro cid node ep ep2 w h
    unfold reallocateCurrentIPAllocation at h
    split at h
    · simp at h
    · split at h
      · simp only [EpOut.ok.injEq] at h
        obtain ⟨h1, -⟩ := h
        subst h1
        exact Nat.le_succ _
      · split at h
        · simp at h
        · simp only [EpOut.ok.injEq] at h
          obtain ⟨h1, -⟩ := h
          subst h1
          simp

/-- Claim C2, witness: the four conjuncts of the amended claim applied
at concrete endpoints. -/
theorem claimC2_witness :
    epFix.history.length = 1 ∧
    c2ep2.history.length = epFix.history.length + 1 ∧
    epFix.history.length ≤ epFix.history.length + 1 := by
  refine ⟨claimC2.1 cid1 podFix ctrlDeploy 0 epFix rfl,
          claimC2.2.2.1 allocPatchFix epFix c2ep2 rfl,
          claimC2.2.2.2 cid1 nodeFix epFix epFix false rfl⟩

/-! ## Claim C4 -/

/-- Claim C4, counterexample.  MarkIPAllocation called while an Endpoint
of the pod's namespace/name exists: the unconditional client.Create in
the source fails with AlreadyExists, so the operation fails instead of
reusing the existing Endpoint, which stays untouched. -/
theorem claimC4_counterexample :
    (markIPAllocation cid1 podFix ctrlDeploy 0 (some epFix)).1 =
      .error .alreadyExists ∧
    (markIPAllocation cid1 podFix ctrlDeploy 0 (some epFix)).2 = some epFix :=
  ⟨rfl, rfl⟩

/-- Claim C4, amended: MarkIPAllocation creates a fresh Endpoint when
none exists (finalizer set, owner reference on the pod unless the top
controller is a StatefulSet, current and a one-record history
initialized); when an Endpoint of the pod's namespace/name already
exists, the create fails with AlreadyExists and MarkIPAllocation returns
that error; reuse of an existing Endpoint is not performed here. -/
theorem claimC4 :
    (∀ cid pod ctrl now, ∃ ep,
        markIPAllocation cid pod ctrl now none = (.ok ep, some ep) ∧
        ep.name = pod.name ∧ ep.namespc = pod.namespc ∧
        ep.finalizers = [spiderFinalizer] ∧
        ep.current.isSome ∧ ep.history.length = 1 ∧
        (ctrl.kind = kindStatefulSet → ep.ownerReferences = []) ∧
        (ctrl.kind ≠ kindStatefulSet →
          ep.ownerReferences = [ownerRefOfPod pod])) ∧
    (∀ cid pod ctrl now ep0,
        (markIPAllocation cid pod ctrl now (some ep0)).1 =
          .error .alreadyExists) := by
  constructor
  · intro cid pod ctrl now
    refine ⟨_, rfl, rfl, rfl, rfl, rfl, rfl, ?_, ?_⟩
    · intro hk
      simp [hk]
    · intro hk
      simp [bne_iff_ne, hk]
  · intro cid pod ctrl now ep0
    rfl

/-- Claim C4, witness: the amended claim at podFix, under both a
StatefulSet and a Deployment controller, and at an occupied store. -/
theorem claimC4_witness :
    (markIPAllocation cid1 podFix ctrlSts 0 (some epFix)).1 =
      .error .alreadyExists ∧
    ((markIPAllocation cid1 podFix ctrlSts 0 none).2.map
      fun ep => ep.ownerReferences) = some [] ∧
    ((markIPAllocation cid1 podFix ctrlDeploy 0 none).2.map
      fun ep => ep.ownerReferences) = some [ownerRefOfPod podFix] := by
  refine ⟨claimC4.2 cid1 podFix ctrlSts 0 epFix, ?_, ?_⟩
  · obtain ⟨ep, hEq, -, -, -, -, -, hSts, -⟩ :=
      claimC4.1 cid1 podFix ctrlSts 0
    rw [hEq]
    simp [hSts rfl]
  · obtain ⟨ep, hEq, -, -, -, -, -, -, hOther⟩ :=
      claimC4.1 cid1 podFix ctrlDeploy 0
    rw [hEq]
    simp [hOther (by decide)]

/-! ## Claim C9 -/

/-- Claim C9: ReMarkIPAllocation on a terminating endpoint indexes the
first owner reference without an emptiness check; it cannot panic when
every terminating endpoint has an owner reference, the out-of-bounds
branch is reached exactly when a terminating endpoint has none, and the
endpoints MarkIPAllocation creates for StatefulSet-owned pods indeed
carry no owner reference. -/
theorem claimC9 :
    (∀ maxH cid ep pod now,
        (ep.deletionTimestamp ≠ none → ep.ownerReferences ≠ []) →
        reMarkIPAllocation maxH cid ep pod now ≠ EpOut.panics) ∧
    (∀ maxH cid ep pod now,
        ep.deletionTimestamp ≠ none → ep.ownerReferences = [] →
        reMarkIPAllocation maxH cid ep pod now = EpOut.panics) ∧
    (∀ cid pod ctrlName now,
        ((markIPAllocation cid pod ⟨kindStatefulSet, ctrlName⟩ now none).2.map
          fun ep => ep.ownerReferences) = some []) := by
  refine ⟨?_, ?_, ?_⟩
  · intro maxH cid ep pod now hno
    unfold reMarkIPAllocation
    split
    · rename_i dt hdt
      have hne := hno (by rw [hdt]; exact Option.some_ne_none dt)
      split
      · rename_i hor
        exact absurd hor hne
      · split
        · simp
        · exact reMarkCore_ne_panics _ _ _ _ _
    · exact reMarkCore_ne_panics _ _ _ _ _
  · intro maxH cid ep pod now hdt hor
    unfold reMarkIPAllocation
    split
    · rw [hor]
    · rename_i hnone
      exact absurd hnone hdt
  · intro cid pod ctrlName now
    simp [markIPAllocation]

/-- Claim C9, witness: the three conjuncts at concrete endpoints - a
terminating endpoint with an owner, a terminating endpoint without one,
and the StatefulSet creation path. -/
theorem claimC9_witness :
    reMarkIPAllocation 10 cid2 epTermOwner podFix 7 ≠ EpOut.panics ∧
    reMarkIPAllocation 10 cid2 epTermNoOwner podFix 7 = EpOut.panics ∧
    ((markIPAllocation cid1 podFix ctrlSts 0 none).2.map
      fun ep => ep.ownerReferences) = some [] := by
  refine ⟨claimC9.1 10 cid2 epTermOwner podFix 7 (fun _ => by decide),
          claimC9.2.1 10 cid2 epTermNoOwner podFix 7 (by decide) rfl,
          claimC9.2.2 cid1 podFix ctrlSts.name 0⟩

/-! ## Claim C10 -/

/-- Claim C10, counterexample.  A terminating endpoint whose owner UID
differs from the pod: its current allocation carries the very container
ID being re-marked, yet ReMarkIPAllocation returns the delete-create
race error rather than succeeding without an update, because the race
check precedes the container ID no-op check. -/
theorem claimC10_counterexample :
    (epRace.current.map fun c => c.containerID) = some cid1 ∧
    reMarkIPAllocation 10 cid1 epRace podFix 7 =
      EpOut.err .deleteCreateRace :=
  ⟨rfl, rfl⟩

/-- Claim C10, amended: ReallocateCurrentIPAllocation is an
unconditional no-op (success, no status update, endpoint unchanged)
whenever current is set and carries the given container ID;
ReMarkIPAllocation behaves the same only after passing the
delete-create-race check first, i.e. when the endpoint is not
terminating or its first owner reference carries the pod's UID. -/
theorem claimC10 :
    (∀ cid node ep cur,
        ep.current = some cur → cur.containerID = cid →
        reallocateCurrentIPAllocation cid node ep = EpOut.ok ep false) ∧
    (∀ maxH cid ep pod now cur,
        ep.current = some cur → cur.containerID = cid →
        (ep.deletionTimestamp = none ∨
          ∃ o os, ep.ownerReferences = o :: os ∧ o.uid = pod.uid) →
        reMarkIPAllocation maxH cid ep pod now = EpOut.ok ep false) := by
  constructor
  · intro cid node ep cur hcur hcid
    unfold reallocateCurrentIPAllocation
    rw [hcur]
    simp [hcid]
  · intro maxH cid ep pod now cur hcur hcid hsafe
    have hcore : reMarkCore maxH cid ep pod now = EpOut.ok ep false := by
      unfold reMarkCore
      rw [hcur]
      simp [hcid]
    unfold reMarkIPAllocation
    rcases hsafe with hdt | ⟨o, os, hor, huid⟩
    · rw [hdt]
      exact hcore
    · cases hdt : ep.deletionTimestamp with
      | none => exact hcore
      | some dt =>
        rw [hor]
        simp [huid, hcore]

/-- Claim C10, witness: the amended claim at concrete endpoints - the
reallocate no-op at epFix and the re-mark no-op at a terminating
endpoint whose single owner reference is the pod itself. -/
theorem claimC10_witness :
    reallocateCurrentIPAllocation cid1 nodeFix epFix = EpOut.ok epFix false ∧
    reMarkIPAllocation 10 cid1 epTermOwner podFix 9 =
      EpOut.ok epTermOwner false := by
  refine ⟨claimC10.1 cid1 nodeFix epFix allocFix rfl rfl,
          claimC10.2 10 cid1 epTermOwner podFix 9 allocFix rfl rfl
            (Or.inr ⟨ownerRefOfPod podFix, [], rfl, rfl⟩)⟩

/-! ## Claim C3 -/

/-- Claim C3, counterexample.  A request with two NICs whose pools carry
different VLAN tags (pool a vlan 0, pool b vlan 1): verifyPoolCandidates
accepts it, while the pools of the whole request do not share one VLAN -
the check is per NIC, not across the request. -/
theorem claimC3_counterexample :
    verifyPoolCandidates vlanCE ttCE = .ok () ∧
    checkVlanSame vlanCE
      (ttCE.foldl (fun acc t => acc ++ allPoolsOf t) []) = false :=
  ⟨rfl, rfl⟩

/-- Claim C3, amended: the verification step checks VLAN uniformity for
each NIC separately - it succeeds exactly when, for every ToBeAllocated
item, all pools retained for that one NIC share the same VLAN tag, and a
mismatch within a NIC fails with WrongInput; pools of different NICs of
one request may carry different VLANs. -/
theorem claimC3 (vlan : String → Nat) (tt : List ToBeAllocated) :
    verifyPoolCandidates vlan tt =
      (if tt.all fun t => checkVlanSame vlan (allPoolsOf t) then .ok ()
       else .error .wrongInput) := by
  induction tt with
  | nil => rfl
  | cons t rest ih =>
    simp only [verifyPoolCandidates, List.all_cons]
    by_cases h : checkVlanSame vlan (allPoolsOf t) = true
    · simp [h, ih]
    · simp [h]

/-! ## Claim C7 -/

/-- Claim C7: getPoolCandidates equals first-match-wins consultation of
the six sources in the order subnet annotation, ippools annotation,
ippool annotation, namespace defaults, netconf defaults, cluster
defaults - a later source is consulted only when every earlier one
yields nothing. -/
theorem claimC7 (s : CandidateSources) :
    getPoolCandidates s = firstMatch (sourceList s) := by
  obtain ⟨fs, aps, ap, pPools, pPool, fns, fnc, cd⟩ := s
  simp only [getPoolCandidates, sourceList, subnetYield, ippoolsYield,
    ippoolYield, nsYield, netConfYield, clusterYield]
  rcases fs with e | t
  · rfl
  · rcases t with - | t
    · rcases aps with - | anno
      · rcases ap with - | anno
        · rcases fns with e | t
          · rfl
          · rcases t with - | t
            · rcases fnc with - | t
              · rcases cd with e | t <;> rfl
              · rfl
            · rfl
        · rcases h : pPool anno with e | t <;> simp [firstMatch, h]
      · rcases h : pPools anno with e | ts <;> simp [firstMatch, h]
    · rfl

/-! ## Claim C8 -/

/-- Under an always-conflicting update oracle, the retry loop from index
i with maxRetries - i iterations left sleeps (draw j mod 2 ^ (j + 1)) *
unit for j = i .. maxRetries - 1 and ends in RetriesExhausted. -/
theorem removeFinalizerAux_conflict (maxRetries unit : Nat)
    (get : Nat → GetOut) (upd : Nat → UpdOut) (draw : Nat → Nat)
    (hget : ∀ j, get j = GetOut.found true)
    (hupd : ∀ j, upd j = UpdOut.conflictU) :
    ∀ fuel i, i + fuel = maxRetries →
      removeFinalizerAux maxRetries unit get upd draw i (fuel + 1) =
        (.error .retriesExhausted, conflictSleeps unit draw i fuel) := by
  intro fuel
  induction fuel with
  | zero =>
    intro i hi
    have : i = maxRetries := by omega
    subst this
    simp [removeFinalizerAux, hget i, hupd i, conflictSleeps]
  | succ n ih =>
    intro i hi
    have hne : ¬ i = maxRetries := by omega
    have hstep : removeFinalizerAux maxRetries unit get upd draw i
          (n + 1 + 1) =
        ((removeFinalizerAux maxRetries unit get upd draw (i + 1)
            (n + 1)).1,
          draw i % 2 ^ (i + 1) * unit ::
            (removeFinalizerAux maxRetries unit get upd draw (i + 1)
              (n + 1)).2) := by
      conv_lhs => rw [removeFinalizerAux]
      simp [hget i, hupd i, hne]
    rw [hstep, ih (i + 1) (by omega)]
    rfl

/-- Claim C8, counterexample.  maxRetries = 2, unit = 1, rand always
drawing 1: the run performs two sleeps [1, 1], not three as an index
range of [0, MaxConflictRetries] would give, and the first sleep equals
1 * unit, which the claimed bound 2 ^ 0 * unit = 1 (a draw from
[0, 2 ^ 0)) makes impossible - the source draws from [0, 2 ^ (i + 1)). -/
theorem claimC8_counterexample :
    removeFinalizer 2 1 c8get c8upd c8draw =
      (.error .retriesExhausted, [1, 1]) ∧
    ¬ ((1 : Nat) < 2 ^ 0 * 1) ∧
    ([1, 1] : List Nat).length ≠ 2 + 1 :=
  ⟨rfl, by decide, by decide⟩

/-- Claim C8, amended: in RemoveFinalizer the sleep after the i-th
conflicting update attempt, for i in [0, MaxConflictRetries - 1], is
rand.Intn(2 ^ (i + 1)) * unit - a draw from [0, 2 ^ (i + 1)), not
[0, 2 ^ i) - and after MaxConflictRetries + 1 consecutive conflicting
updates the operation returns RetriesExhausted. -/
theorem claimC8 (maxRetries unit : Nat) (get : Nat → GetOut)
    (upd : Nat → UpdOut) (draw : Nat → Nat)
    (hget : ∀ j, get j = GetOut.found true)
    (hupd : ∀ j, upd j = UpdOut.conflictU) :
    removeFinalizer maxRetries unit get upd draw =
      (.error .retriesExhausted, conflictSleeps unit draw 0 maxRetries) :=
  removeFinalizerAux_conflict maxRetries unit get upd draw hget hupd
    maxRetries 0 (by omega)

/-- Claim C8, witness: the amended claim at maxRetries = 2, unit = 1 and
the constant oracles. -/
theorem claimC8_witness :
    removeFinalizer 2 1 c8get c8upd c8draw =
      (.error .retriesExhausted, conflictSleeps 1 c8draw 0 2) :=
  claimC8 2 1 c8get c8upd c8draw (fun _ => rfl) (fun _ => rfl)

/-! ## Claim C6 -/

/-- The per-pool release fan-out ignores the limiter acquisition
outcome except for its log line: the aggregated success flag and the
resulting state do not depend on acquireOk. -/
theorem releaseGroups_acquire (env : IpamEnv) (b : Bool) :
    ∀ gs st,
      (releaseGroups { env with acquireOk := b } gs st).1 =
        (releaseGroups env gs st).1 ∧
      (releaseGroups { env with acquireOk := b } gs st).2.1 =
        (releaseGroups env gs st).2.1 := by
  intro gs
  induction gs with
  | nil => intro st; exact ⟨rfl, rfl⟩
  | cons g rest ih =>
    intro st
    simp only [releaseGroups]
    constructor
    · rw [(ih _).1]
    · rw [(ih _).2]

/-- Claim C6: a limiter ticket-acquisition failure never aborts the
operation.  In allocateIPFromPoolCandidates the result, the state and
the error are the same whether acquisition succeeds or fails, the
failure contributing exactly one extra log line; ipam.release likewise
computes the same result and state for either acquisition outcome. -/
theorem claimC6 :
    (∀ env b c nic cid cg st,
      (allocateIPFromPoolCandidates { env with acquireOk := b }
          c nic cid cg st).1 =
        (allocateIPFromPoolCandidates env c nic cid cg st).1 ∧
      (allocateIPFromPoolCandidates { env with acquireOk := b }
          c nic cid cg st).2.1 =
        (allocateIPFromPoolCandidates env c nic cid cg st).2.1 ∧
      (allocateIPFromPoolCandidates { env with acquireOk := b }
          c nic cid cg st).2.2.1 =
        (allocateIPFromPoolCandidates env c nic cid cg st).2.2.1 ∧
      (allocateIPFromPoolCandidates { env with acquireOk := false }
          c nic cid cg st).2.2.2 =
        "Failed to queue correctly" ::
          (allocateIPFromPoolCandidates { env with acquireOk := true }
            c nic cid cg st).2.2.2) ∧
    (∀ env b cid details st,
      (releaseS { env with acquireOk := b } cid details st).1 =
        (releaseS env cid details st).1 ∧
      (releaseS { env with acquireOk := b } cid details st).2.1 =
        (releaseS env cid details st).2.1) := by
  constructor
  · intro env b c nic cid cg st
    simp only [allocateIPFromPoolCandidates]
    cases h : (tryPools env.allocateIP c.pools nic cid st).1 <;>
      cases b <;> simp [h]
  · intro env b cid details st
    cases details with
    | nil => exact ⟨rfl, rfl⟩
    | cons d ds =>
      simp only [releaseS]
      refine ⟨?_, ?_⟩
      · rw [(releaseGroups_acquire env b _ st).1]
      · rw [(releaseGroups_acquire env b _ st).2]

/-! ## Claim C1 -/

/-- Claim C1, counterexample.  One NIC, pool p4: the per-NIC allocation
succeeds (an entry is granted), the annotation merge fails, and
allocateInStandardMode then releases the granted IP (the grant set ends
empty) and clears the endpoint's current allocation while returning the
merge error - it does not keep the allocation. -/
theorem claimC1_counterexample :
    (allocateInStandardMode envC1 tt1 cid1 st0).1 = .error .mergeFailed ∧
    c1out.2.1.granted = [⟨"p4", "10.0.0.2/24", "c1"⟩] ∧
    (allocateInStandardMode envC1 tt1 cid1 st0).2.1.granted = [] ∧
    ((allocateInStandardMode envC1 tt1 cid1 st0).2.1.endpoint.bind
      fun ep => ep.current) = none :=
  ⟨rfl, rfl, rfl, rfl⟩

/-- Claim C1, amended: when the per-NIC allocations succeed with at
least one granted IP but the IP-assignment merge (or any later step of
allocateForAllNICs) fails, allocateInStandardMode rolls back - it runs
the release over the granted results and clears the endpoint's current
allocation (when that release succeeds) - and returns the original
error; the allocation is not kept. -/
theorem claimC1 (env : IpamEnv) (tt : List ToBeAllocated) (cid : String)
    (st : IpamState) (ep : SpiderEndpoint) (e : IPAMErr)
    (results : List AllocationResult) (st1 : IpamState) (lgs : List String)
    (rst : IpamState) (rlgs : List String)
    (hmark : env.markResult = .ok ep)
    (halloc : allocateForAllNICs env tt cid { st with endpoint := some ep } =
      (results, st1, some e, lgs))
    (hres : (convertResultsToIPConfigsAndAllRoutes results).1 ≠ [])
    (hrel : releaseS env cid (convertResultsToIPDetails results) st1 =
      (.ok (), rst, rlgs)) :
    allocateInStandardMode env tt cid st =
      (.error e,
       { rst with endpoint := clearCurrentIPAllocation cid rst.endpoint },
       lgs ++ rlgs) := by
  simp only [allocateInStandardMode, hmark, halloc, hrel]
  cases hc : (convertResultsToIPConfigsAndAllRoutes results).1 with
  | nil => exact absurd hc hres
  | cons a as => simp [hc]

/-- Claim C1, witness: the amended claim at the concrete C1 run (pool
p4 allocates, the merge fails, the release succeeds). -/
theorem claimC1_witness :
    allocateInStandardMode envC1 tt1 cid1 st0 =
      (.error .mergeFailed,
       { c1rel.2.1 with endpoint :=
           clearCurrentIPAllocation cid1 c1rel.2.1.endpoint },
       c1out.2.2.2 ++ c1rel.2.2) :=
  claimC1 envC1 tt1 cid1 st0 epFix .mergeFailed c1out.1 c1out.2.1
    c1out.2.2.2 c1rel.2.1 c1rel.2.2 rfl rfl (by decide) rfl

/-! ## Claim C5 -/

/-- Claim C5: when rollback after a failed per-NIC allocation itself
fails to release the granted IPs, allocateInStandardMode still returns
the original allocation error - the rollback failure never replaces it -
and the rollback-failure metric is incremented by one. -/
theorem claimC5 (env : IpamEnv) (tt : List ToBeAllocated) (cid : String)
    (st : IpamState) (ep : SpiderEndpoint) (e re : IPAMErr)
    (results : List AllocationResult) (st1 : IpamState) (lgs : List String)
    (rst : IpamState) (rlgs : List String)
    (hmark : env.markResult = .ok ep)
    (halloc : allocateForAllNICs env tt cid { st with endpoint := some ep } =
      (results, st1, some e, lgs))
    (hres : (convertResultsToIPConfigsAndAllRoutes results).1 ≠ [])
    (hrel : releaseS env cid (convertResultsToIPDetails results) st1 =
      (.error re, rst, rlgs)) :
    allocateInStandardMode env tt cid st =
      (.error e,
       { rst with rollbackFailureMetric := rst.rollbackFailureMetric + 1 },
       lgs ++ rlgs ++ ["Failed to roll back the allocated IPs"]) := by
  simp only [allocateInStandardMode, hmark, halloc, hrel]
  cases hc : (convertResultsToIPConfigsAndAllRoutes results).1 with
  | nil => exact absurd hc hres
  | cons a as => simp [hc]

/-- Claim C5, witness: two NICs, the second NIC's only pool exhausted,
every release failing - the original allocation error is surfaced and
the metric incremented. -/
theorem claimC5_witness :
    allocateInStandardMode envC5 tt2 cid1 st0 =
      (.error .allocFailed,
       { c5rel.2.1 with rollbackFailureMetric :=
           c5rel.2.1.rollbackFailureMetric + 1 },
       c5out.2.2.2 ++ c5rel.2.2 ++
         ["Failed to roll back the allocated IPs"]) :=
  claimC5 envC5 tt2 cid1 st0 epFix .allocFailed .releaseFailed c5out.1
    c5out.2.1 c5out.2.2.2 c5rel.2.1 c5rel.2.2 rfl rfl (by decide) rfl
